import Mathlib

/-!
Shallow embedding of the call-scheduling core of the ibrat-backend
repository (src/src/models/Lead.js, src/src/models/CallLog.js,
src/services/callQueue.js, src/services/twilioService.js,
src/src/routes/operator.js), with theorems settling the spec claims.

Timestamps are modelled as natural numbers (milliseconds since epoch,
as JavaScript Date values). Mongoose documents are modelled as plain
records; `save()` validation is modelled by `saveLead`.
-/

/-- One entry of a lead's `callHistory` array (Lead.js lines 45-51). -/
structure HistoryEntry where
  attempt : Nat
  timestamp : Nat
  status : String
  duration : Nat
  notes : String
deriving Repr, DecidableEq

/-- A Lead document (Lead.js lines 3-70). Fields never read or written by
the modelled operations (name, email, tags, source) are omitted. -/
structure Lead where
  id : Nat
  phone : String
  status : String
  priority : String
  callAttempts : Nat
  lastCallAttempt : Option Nat
  nextCallTime : Option Nat
  assignedTo : Option Nat
  callHistory : List HistoryEntry
  isActive : Bool
  createdAt : Nat
  updatedAt : Nat
deriving Repr, DecidableEq

/-- The `status` enum of the Lead schema (Lead.js lines 20-24).
Note that it does not contain the value `claimed`. -/
def leadStatusEnum : List String :=
  ["pending", "calling", "answered", "no_answer", "busy", "failed",
   "completed", "transferred"]

/-- The `priority` enum of the Lead schema (Lead.js lines 25-29). -/
def leadPriorityEnum : List String :=
  ["low", "medium", "high", "urgent"]

/-- Character class of the phone validator regex in Lead.js line 8
(digits, whitespace, minus, parentheses). -/
def phoneCharOk (c : Char) : Bool :=
  c.isDigit || c = ' ' || c = '-' || c = '(' || c = ')'

/-- The phone match validator of Lead.js line 8: an optional leading plus
followed by one or more characters of the allowed class. -/
def phoneOk (s : String) : Bool :=
  let cs :=
    match s.data with
    | '+' :: rest => rest
    | cs => cs
  !cs.isEmpty && cs.all phoneCharOk

/-- Mongoose document validation run by `lead.save()`: the declared
validators of the Lead schema on the modelled fields — phone `match`
(line 8), `status` enum (lines 20-24), `priority` enum (lines 25-29) and
the `callAttempts` max of 5 (lines 30-34). -/
def validateLead (l : Lead) : Bool :=
  phoneOk l.phone && l.status ∈ leadStatusEnum &&
    l.priority ∈ leadPriorityEnum && l.callAttempts ≤ 5

/-- Model of `lead.save()`: validation failure rejects the write and the
stored document is unchanged; success persists the document. -/
def saveLead (l : Lead) : Except String Lead :=
  if validateLead l then Except.ok l else Except.error "ValidationError"

/-- Model of `leadSchema.methods.updateCallStatus` (Lead.js lines 78-106),
returning the mutated in-memory document (the method then calls
`this.save()`, modelled separately by `saveLead`). -/
def updateCallStatus (l : Lead) (status : String) (duration : Nat)
    (notes : String) (now : Nat) : Lead :=
  let l := { l with status := status, lastCallAttempt := some now }
  if status = "answered" || status = "no_answer" || status = "busy" ||
      status = "failed" then
    let attempts := l.callAttempts + 1
    let l := { l with
      callAttempts := attempts,
      callHistory := l.callHistory ++
        [{ attempt := attempts, timestamp := now, status := status,
           duration := duration, notes := notes }] }
    if status = "no_answer" && attempts < 3 then
      { l with nextCallTime := some (now + 30 * 60 * 1000) }
    else if status = "busy" && attempts < 3 then
      { l with nextCallTime := some (now + 15 * 60 * 1000) }
    else if 3 ≤ attempts then
      { l with status := "failed", isActive := false }
    else l
  else l

/-- Bytewise lexicographic order on character lists, the binary collation
MongoDB uses to compare string values in `sort`. -/
def charsLt : List Char → List Char → Bool
  | [], [] => false
  | [], _ :: _ => true
  | _ :: _, [] => false
  | a :: as, b :: bs => if a = b then charsLt as bs else decide (a < b)

/-- MongoDB default string comparison (binary collation). -/
def mongoStrLt (a b : String) : Bool :=
  charsLt a.data b.data

/-- Eligibility filter of `getNextLeadToCall` (Lead.js lines 117-123):
`status: 'pending'`, `isActive: true`, and `nextCallTime` absent or
less than or equal to now. -/
def isEligible (now : Nat) (l : Lead) : Bool :=
  l.status = "pending" && l.isActive &&
    (match l.nextCallTime with
     | none => true
     | some t => decide (t ≤ now))

/-- The sort key of `getNextLeadToCall` (Lead.js line 124):
`.sort({ priority: 1, createdAt: 1 })` — priority ascending under
MongoDB string comparison, then createdAt ascending. -/
def leadSortLt (a b : Lead) : Bool :=
  mongoStrLt a.priority b.priority ||
    (a.priority = b.priority && decide (a.createdAt < b.createdAt))

/-- Keep the minimum under `leadSortLt`, preferring the earlier element
on full ties (findOne on a stable sort). -/
def pickMin (acc : Option Lead) (l : Lead) : Option Lead :=
  match acc with
  | none => some l
  | some m => if leadSortLt l m then some l else some m

/-- Model of `leadSchema.statics.getNextLeadToCall` (Lead.js lines
116-125) over a stored list of leads: findOne over the eligibility
filter, sorted by `{ priority: 1, createdAt: 1 }`. -/
def getNextLeadToCall (store : List Lead) (now : Nat) : Option Lead :=
  (store.filter (isEligible now)).foldl pickMin none

/-- Second definition, following the spec's words for comparison
(section 4.1): rank table urgent greater than high greater than medium
greater than low; lower rank number means called earlier. -/
def specPriorityRank (p : String) : Nat :=
  if p = "urgent" then 0
  else if p = "high" then 1
  else if p = "medium" then 2
  else 3

/-- Spec-side sort key: priority rank, then creation time ascending. -/
def specLeadSortLt (a b : Lead) : Bool :=
  decide (specPriorityRank a.priority < specPriorityRank b.priority) ||
    (specPriorityRank a.priority = specPriorityRank b.priority &&
      decide (a.createdAt < b.createdAt))

/-- Keep the minimum under `specLeadSortLt`. -/
def specPickMin (acc : Option Lead) (l : Lead) : Option Lead :=
  match acc with
  | none => some l
  | some m => if specLeadSortLt l m then some l else some m

/-- Spec section 4.1 selection, for comparison with `getNextLeadToCall`. -/
def selectNextEligibleLeadSpec (store : List Lead) (now : Nat) :
    Option Lead :=
  (store.filter (isEligible now)).foldl specPickMin none

/-- A CallLog document (CallLog.js lines 3-80). Fields never read or
written by the modelled operations (direction, from, to, transfer and
recording data, cost, notes, metadata) are omitted. -/
structure CallLog where
  id : Nat
  lead : Nat
  salesperson : Nat
  twilioCallSid : Option String
  status : String
  duration : Nat
  startTime : Nat
  endTime : Option Nat
  answerTime : Option Nat
  errorMessage : Option String
deriving Repr, DecidableEq

/-- Model of `callLogSchema.methods.updateStatus` (CallLog.js lines
88-111). The `additionalData` object is modelled by the two fields the
callers actually pass through it: a duration override and an error
message; the JS applies the status-specific logic first and the
additional fields afterwards, overriding. -/
def CallLog.updateStatus (c : CallLog) (status : String) (now : Nat)
    (extraDuration : Option Nat) (extraErrMsg : Option String) : CallLog :=
  let c := { c with status := status }
  let c :=
    if status = "answered" then { c with answerTime := some now }
    else if status = "completed" then
      let c := { c with endTime := some now }
      match c.answerTime with
      | some a => { c with duration := (now - a) / 1000 }
      | none => c
    else if status = "failed" || status = "busy" || status = "no-answer"
      then { c with endTime := some now }
    else c
  let c :=
    match extraDuration with
    | some d => { c with duration := d }
    | none => c
  match extraErrMsg with
  | some m => { c with errorMessage := some m }
  | none => c

/-- A salesperson's aggregate call counters (`user.callStats`, read and
written by callQueue.js lines 232-239). -/
structure Salesperson where
  totalCalls : Nat
  successfulCalls : Nat
deriving Repr, DecidableEq

/-- The salesperson-stats update of `handleCallCompletion` (callQueue.js
lines 232-239): always increment `totalCalls`; increment
`successfulCalls` exactly when the status is `completed`. -/
def spUpdate (sp : Salesperson) (status : String) : Salesperson :=
  let sp := { sp with totalCalls := sp.totalCalls + 1 }
  if status = "completed" then
    { sp with successfulCalls := sp.successfulCalls + 1 }
  else sp

/-- Result of `handleCallCompletion`: the scheduler's active-call keys,
the in-memory lead document after the handler (`leadDoc`, exactly the
mutations the source performs on the fetched document) and the lead as
the store holds it afterwards (`leadStored`: the branches for `answered`
and `completed` assign `lead.status` but never call `lead.save()`, so
the stored lead is unchanged there; `updateCallStatus` saves, and a
rejected save throws, which line 243 catches, skipping the salesperson
update). -/
structure CompletionEffect where
  activeCalls : List Nat
  leadDoc : Lead
  leadStored : Lead
  sp : Salesperson
deriving Repr, DecidableEq

/-- Model of `handleCallCompletion` (callQueue.js lines 205-246), given
the looked-up call log, lead and salesperson documents. -/
def handleCallCompletion (ac : List Nat) (cl : CallLog) (lead : Lead)
    (sp : Salesperson) (status : String) (now : Nat) : CompletionEffect :=
  let ac2 := ac.filter (fun x => x ≠ cl.lead)
  if status = "answered" then
    { activeCalls := ac2, leadDoc := { lead with status := "answered" },
      leadStored := lead, sp := spUpdate sp status }
  else if status = "completed" then
    { activeCalls := ac2,
      leadDoc := { lead with status := "transferred" },
      leadStored := lead, sp := spUpdate sp status }
  else if status = "busy" || status = "no-answer" || status = "failed"
    then
    let doc := updateCallStatus lead status 0 "" now
    match saveLead doc with
    | Except.ok l2 =>
        { activeCalls := ac2, leadDoc := doc, leadStored := l2,
          sp := spUpdate sp status }
    | Except.error _ =>
        { activeCalls := ac2, leadDoc := doc, leadStored := lead,
          sp := sp }
  else
    { activeCalls := ac2, leadDoc := lead, leadStored := lead,
      sp := spUpdate sp status }

/-- Result of `handleCallFailure` (callQueue.js lines 180-203). -/
structure FailureEffect where
  lead : Lead
  callLog : Option CallLog
  activeCalls : List Nat
deriving Repr, DecidableEq

/-- Model of `handleCallFailure` (callQueue.js lines 180-203): reset the
lead to `pending` with `assignedTo` cleared, mark the call log `failed`
with the error message when it exists, and delete the lead's key from
`activeCalls`. -/
def handleCallFailure (lead : Lead) (callLog : Option CallLog)
    (err : String) (ac : List Nat) (now : Nat) : FailureEffect :=
  let lead2 : Lead :=
    { lead with status := "pending", assignedTo := none, updatedAt := now }
  let cl2 : Option CallLog := callLog.map fun c =>
    { c with status := "failed", errorMessage := some err }
  { lead := lead2, callLog := cl2,
    activeCalls := ac.filter (fun x => x ≠ lead.id) }

/-- Model of `resetStuckLeads` (callQueue.js lines 248-270): every lead
with `status: 'calling'` and `updatedAt` strictly older than five
minutes before now is reset to `pending` with `assignedTo` cleared and
saved (which refreshes `updatedAt`); every other lead is untouched.
Over naturals, `updatedAt < now - 300000` is written as
`updatedAt + 300000 < now`, which agrees with the JS integer comparison
for every value of `now`. -/
def resetStuckLeads (now : Nat) (store : List Lead) : List Lead :=
  store.map fun l =>
    if l.status = "calling" && decide (l.updatedAt + 5 * 60 * 1000 < now)
      then { l with status := "pending", assignedTo := none, updatedAt := now }
    else l

/-- The concurrency limit of the queue (`maxConcurrentCalls`,
callQueue.js line 11). -/
def maxConcurrentCalls : Nat := 5

/-- Model of one `processQueue` tick (callQueue.js lines 69-107) acting
on the `activeCalls` key set: return unchanged when the concurrency
limit is reached, no eligible lead exists, the selected lead is already
active, or no salesperson is available; otherwise insert the lead's key
and call `makeCall`, whose synchronous placement failure branch
(callQueue.js lines 169-177) runs `handleCallFailure`, deleting the key
again. `spAvailable` is the result of `findAvailableSalesperson` and
`placementOk` whether `initiateCall` reported success. -/
def processQueue (ac : List Nat) (store : List Lead) (now : Nat)
    (spAvailable : Option Nat) (placementOk : Bool) : List Nat :=
  if maxConcurrentCalls ≤ ac.length then ac
  else
    match getNextLeadToCall store now with
    | none => ac
    | some lead =>
      if lead.id ∈ ac then ac
      else
        match spAvailable with
        | none => ac
        | some _ =>
          let ac2 := lead.id :: ac
          if placementOk then ac2
          else (handleCallFailure lead none "error" ac2 now).activeCalls

/-- The scheduler states reachable from startup: `activeCalls` begins
empty (callQueue.js line 12); a tick runs `processQueue`; completion and
failure handling delete a key (callQueue.js lines 217 and 196). -/
inductive QueueReachable : List Nat → Prop where
  | init : QueueReachable []
  | tick (ac : List Nat) (store : List Lead) (now : Nat)
      (sp : Option Nat) (pl : Bool) : QueueReachable ac →
      QueueReachable (processQueue ac store now sp pl)
  | remove (ac : List Nat) (x : Nat) : QueueReachable ac →
      QueueReachable (ac.filter (fun y => y ≠ x))

/-- The recognised cases of the Twilio status switch in
`handleCallStatusUpdate` (twilioService.js lines 114-139); any other
value falls to the default branch. -/
def knownTwilioStatuses : List String :=
  ["initiated", "ringing", "answered", "completed", "busy", "no-answer",
   "failed", "canceled"]

/-- The switch of `handleCallStatusUpdate` (twilioService.js lines
110-143): the mapped status, the duration passed through
`additionalData` for `completed`, and the error message set for an
unknown provider status. -/
def twilioSwitch (twilioStatus : String) (duration : Nat) :
    String × Option Nat × Option String :=
  if twilioStatus = "completed" then ("completed", some duration, none)
  else if twilioStatus ∈ knownTwilioStatuses then
    (twilioStatus, none, none)
  else ("failed", none,
    some ("Unknown Twilio status: " ++ twilioStatus))

/-- Result of `handleCallStatusUpdate`: the updated call log, the lead
document as mutated in memory, the lead as the store holds it afterwards
(the `answered` and `completed` branches assign `lead.status` without a
`save()`, so the stored lead is unchanged there), and whether the
handler threw (a rejected `lead.save()` inside `updateCallStatus`
propagates, twilioService.js lines 165-168, making the webhook route
answer 500). -/
structure WebhookEffect where
  callLog : CallLog
  leadDoc : Lead
  leadStored : Lead
  errored : Bool
deriving Repr, DecidableEq

/-- Model of `handleCallStatusUpdate` (twilioService.js lines 108-169),
given the call log found by `twilioCallSid` and the lead it references. -/
def handleCallStatusUpdate (cl : CallLog) (lead : Lead)
    (twilioStatus : String) (duration : Nat) (now : Nat) : WebhookEffect :=
  let mapped := twilioSwitch twilioStatus duration
  let status := mapped.1
  let cl2 := CallLog.updateStatus cl status now mapped.2.1 mapped.2.2
  if status = "answered" then
    { callLog := cl2, leadDoc := { lead with status := "answered" },
      leadStored := lead, errored := false }
  else if status = "completed" then
    { callLog := cl2, leadDoc := { lead with status := "transferred" },
      leadStored := lead, errored := false }
  else if status = "busy" || status = "no-answer" || status = "failed"
    then
    let doc := updateCallStatus lead status duration "" now
    match saveLead doc with
    | Except.ok l2 =>
        { callLog := cl2, leadDoc := doc, leadStored := l2,
          errored := false }
    | Except.error _ =>
        { callLog := cl2, leadDoc := doc, leadStored := lead,
          errored := true }
  else
    { callLog := cl2, leadDoc := lead, leadStored := lead,
      errored := false }

/-- Model of `POST /api/operator/leads/claim` (operator.js lines
175-226): after the route guards, the lead is assigned to the operator,
its status is set to `claimed`, and `lead.save()` is attempted. -/
def claimLead (lead : Lead) (userId : Nat) : Except String Lead :=
  if !lead.isActive then Except.error "Lead is not active"
  else if lead.status ≠ "pending" then
    Except.error "Lead is not available for claiming"
  else if lead.assignedTo.isSome then
    Except.error "Lead is already assigned to another operator"
  else saveLead { lead with assignedTo := some userId, status := "claimed" }

/-- The control state of the `CallQueue` singleton: the `isRunning`
flag and the `callInterval` timer handle (callQueue.js lines 8-9),
holding the identifier of the live interval timer when one exists. -/
structure CallQueueCtl where
  isRunning : Bool
  callInterval : Option Nat
deriving Repr, DecidableEq

/-- The constructor state of `CallQueue` (callQueue.js lines 8-9). -/
def ctlInit : CallQueueCtl :=
  { isRunning := false, callInterval := none }

/-- Model of `start()` (callQueue.js lines 34-49): when already running,
log and return unchanged; otherwise set `isRunning` and install a fresh
interval timer. -/
def ctlStart (s : CallQueueCtl) (timerId : Nat) : CallQueueCtl :=
  if s.isRunning then s
  else { isRunning := true, callInterval := some timerId }

/-- Model of `stop()` (callQueue.js lines 52-66): when not running, log
and return unchanged; otherwise clear `isRunning` and, when a timer is
installed, clear it and null the handle. -/
def ctlStop (s : CallQueueCtl) : CallQueueCtl :=
  if !s.isRunning then s
  else { isRunning := false, callInterval := none }

/-- Model of `pause()` (callQueue.js lines 340-345): `stop()` when
running. -/
def ctlPause (s : CallQueueCtl) : CallQueueCtl :=
  if s.isRunning then ctlStop s else s

/-- Model of `resume()` (callQueue.js lines 348-353): `start()` when not
running. -/
def ctlResume (s : CallQueueCtl) (timerId : Nat) : CallQueueCtl :=
  if !s.isRunning then ctlStart s timerId else s

/-- The `isRunning` field reported by `getStatus()` (callQueue.js lines
273-281). -/
def getStatusIsRunning (s : CallQueueCtl) : Bool :=
  s.isRunning

/-- Control states reachable from the constructor state under the
exposed operations. -/
inductive CtlReachable : CallQueueCtl → Prop where
  | init : CtlReachable ctlInit
  | start (s : CallQueueCtl) (t : Nat) : CtlReachable s →
      CtlReachable (ctlStart s t)
  | stop (s : CallQueueCtl) : CtlReachable s → CtlReachable (ctlStop s)
  | pause (s : CallQueueCtl) : CtlReachable s → CtlReachable (ctlPause s)
  | resume (s : CallQueueCtl) (t : Nat) : CtlReachable s →
      CtlReachable (ctlResume s t)

/-!
Concrete fixtures used by the closed theorems below.
-/

/-- A freshly imported lead: `status=pending`, no attempts, active. -/
def baseLead : Lead :=
  { id := 1, phone := "+1", status := "pending", priority := "high",
    callAttempts := 0, lastCallAttempt := none, nextCallTime := none,
    assignedTo := none, callHistory := [], isActive := true,
    createdAt := 0, updatedAt := 0 }

/-- An eligible high-priority lead created at time 0. -/
def leadHighEarlier : Lead :=
  baseLead

/-- An eligible urgent-priority lead created later, at time 1. -/
def leadUrgentLater : Lead :=
  { baseLead with id := 2, phone := "+2", priority := "urgent", createdAt := 1 }

/-- A lead that already has two counted attempts. -/
def leadTwoAttempts : Lead :=
  { baseLead with id := 3, phone := "+3", callAttempts := 2 }

/-- A lead in the terminal state `transferred`. -/
def leadTransferred : Lead :=
  { baseLead with id := 4, phone := "+4", status := "transferred" }

/-- A lead stuck in `calling` since time 0. -/
def stuckLead : Lead :=
  { baseLead with id := 5, phone := "+5", status := "calling", assignedTo := some 7, callAttempts := 1 }

/-- A pending lead whose last update is recent. -/
def freshLead : Lead :=
  { baseLead with id := 6, phone := "+6", updatedAt := 350000 }

/-- A call attempt in `initiated` status for `baseLead`. -/
def callLogInit : CallLog :=
  { id := 10, lead := 1, salesperson := 7, twilioCallSid := some "CA1",
    status := "initiated", duration := 0, startTime := 0, endTime := none,
    answerTime := none, errorMessage := none }

/-- A call attempt already in the terminal status `completed`. -/
def callLogCompleted : CallLog :=
  { callLogInit with status := "completed" }

/-- A salesperson with zeroed aggregate counters. -/
def spZero : Salesperson :=
  { totalCalls := 0, successfulCalls := 0 }

/-- First application of a `busy` completion to `baseLead`. -/
def busyOnce : CompletionEffect :=
  handleCallCompletion [1] callLogInit baseLead spZero "busy" 1000

/-- Second application of the same `busy` completion. -/
def busyTwice : CompletionEffect :=
  handleCallCompletion busyOnce.activeCalls callLogInit busyOnce.leadStored
    busyOnce.sp "busy" 2000

/-!
Helper lemmas shared by the claim theorems.
-/

/-- A lead produced by folding `pickMin` is the accumulator or a member
of the folded list. -/
theorem foldl_pickMin_mem (xs : List Lead) : ∀ (acc : Option Lead)
    (l : Lead), xs.foldl pickMin acc = some l → acc = some l ∨ l ∈ xs := by
  induction xs with
  | nil => intro acc l h; exact Or.inl h
  | cons x xs ih =>
    intro acc l h
    rcases ih (pickMin acc x) l h with h' | h'
    · unfold pickMin at h'
      match acc, h' with
      | none, h' => exact Or.inr (by simp [← Option.some_inj.mp h'])
      | some m, h' =>
        by_cases hc : leadSortLt x m
        · simp [hc] at h'
          exact Or.inr (by simp [← h'])
        · simp [hc] at h'
          exact Or.inl (by simp [h'])
    · exact Or.inr (List.mem_cons_of_mem _ h')

/-- Whatever `getNextLeadToCall` returns satisfies the eligibility
filter. -/
theorem getNext_eligible (store : List Lead) (now : Nat) (l : Lead)
    (h : getNextLeadToCall store now = some l) : isEligible now l = true := by
  unfold getNextLeadToCall at h
  rcases foldl_pickMin_mem _ none l h with h' | h'
  · exact absurd h' (by simp)
  · exact (List.mem_filter.mp h').2

/-- One tick grows the active-call set by at most one key. -/
theorem processQueue_len_le (ac : List Nat) (store : List Lead)
    (now : Nat) (sp : Option Nat) (pl : Bool) :
    (processQueue ac store now sp pl).length ≤ ac.length + 1 := by
  unfold processQueue
  split
  · omega
  · split
    · omega
    · split
      · omega
      · split
        · omega
        · split
          · simp
          · exact le_trans (List.length_filter_le _ _) (by simp)

/-- A tick at the concurrency cap is a no-op on the active-call set. -/
theorem processQueue_at_cap (ac : List Nat) (store : List Lead)
    (now : Nat) (sp : Option Nat) (pl : Bool)
    (h : maxConcurrentCalls ≤ ac.length) :
    processQueue ac store now sp pl = ac := by
  unfold processQueue
  rw [if_pos h]

/-!
Claim theorems.
-/

/-- Claim C1. The claim states that `getNextLeadToCall` selects the
eligible lead of highest priority under the rank order urgent, high,
medium, low (tie-break by earliest creation) and never falls back to
alphabetical ordering of the labels. The code sorts by
`{ priority: 1, createdAt: 1 }`, which compares the priority labels as
strings ascending; under that order `high` sorts before `urgent`, so an
eligible high-priority lead created earlier is returned ahead of an
eligible urgent-priority lead created later, while the spec ordering
(`selectNextEligibleLeadSpec`) returns the urgent lead. This theorem
evaluates both selections on that store. -/
theorem c1_selection_uses_alphabetical_order :
    getNextLeadToCall [leadHighEarlier, leadUrgentLater] 100 =
      some leadHighEarlier ∧
    leadHighEarlier.priority = "high" ∧
    leadUrgentLater.priority = "urgent" ∧
    leadHighEarlier.createdAt < leadUrgentLater.createdAt ∧
    isEligible 100 leadUrgentLater = true ∧
    selectNextEligibleLeadSpec [leadHighEarlier, leadUrgentLater] 100 =
      some leadUrgentLater := by
  decide

/-- Claim C2 counterexample. The claim states that applying `no_answer`
(or `busy`) below the attempt cap sets the lead's status back to
`pending`; on the code, `updateCallStatus` keeps the outcome itself as
the status (the repository's own test, test-system.js line 125, asserts
exactly this), so at a concrete fresh lead the status after the update
is `no_answer`, not `pending`. -/
theorem c2_counterexample_status_not_pending :
    (updateCallStatus baseLead "no_answer" 0 "" 1000).status =
      "no_answer" ∧
    ¬ (updateCallStatus baseLead "no_answer" 0 "" 1000).status =
      "pending" ∧
    (updateCallStatus baseLead "busy" 0 "" 1000).status = "busy" := by
  decide

/-- Claim C2, amended. For every lead whose attempt count after
increment is below 3, applying outcome `no_answer` keeps status
`no_answer` (not `pending`) and sets `nextCallTime` to now plus 30
minutes, and applying outcome `busy` keeps status `busy` and sets
`nextCallTime` to now plus 15 minutes; both count the attempt. -/
theorem c2_amended_backoff_times (l : Lead) (d : Nat) (notes : String)
    (now : Nat) (h : l.callAttempts + 1 < 3) :
    (updateCallStatus l "no_answer" d notes now).status = "no_answer" ∧
    (updateCallStatus l "no_answer" d notes now).nextCallTime =
      some (now + 30 * 60 * 1000) ∧
    (updateCallStatus l "no_answer" d notes now).callAttempts =
      l.callAttempts + 1 ∧
    (updateCallStatus l "busy" d notes now).status = "busy" ∧
    (updateCallStatus l "busy" d notes now).nextCallTime =
      some (now + 15 * 60 * 1000) ∧
    (updateCallStatus l "busy" d notes now).callAttempts =
      l.callAttempts + 1 := by
  simp [updateCallStatus, h]

/-- Witness for the amended claim C2 at a concrete fresh lead. -/
theorem c2_amended_backoff_times_witness :
    (updateCallStatus baseLead "no_answer" 0 "" 1000).status =
      "no_answer" ∧
    (updateCallStatus baseLead "no_answer" 0 "" 1000).nextCallTime =
      some (1000 + 30 * 60 * 1000) ∧
    (updateCallStatus baseLead "no_answer" 0 "" 1000).callAttempts =
      baseLead.callAttempts + 1 ∧
    (updateCallStatus baseLead "busy" 0 "" 1000).status = "busy" ∧
    (updateCallStatus baseLead "busy" 0 "" 1000).nextCallTime =
      some (1000 + 15 * 60 * 1000) ∧
    (updateCallStatus baseLead "busy" 0 "" 1000).callAttempts =
      baseLead.callAttempts + 1 :=
  c2_amended_backoff_times baseLead 0 "" 1000 (by decide)

/-- Claim C3. The claim states that applying the same terminal outcome
twice leaves call-attempt status, lead status, attempt count and agent
counters unchanged, that transitions out of a terminal Call Attempt
state are rejected, and that a lead in a terminal state is never moved
out of it by a later callback. The code has no terminal-state guard:
this theorem evaluates `handleCallCompletion` applying `busy` twice to
the same lead (attempt count and the agent's total both reach 2),
`CallLog.updateStatus` moving a `completed` attempt to `failed`, and a
`busy` callback moving a `transferred` lead out of its terminal state. -/
theorem c3_double_outcome_double_increments :
    busyOnce.leadStored.callAttempts = 1 ∧
    busyOnce.sp.totalCalls = 1 ∧
    busyTwice.leadStored.callAttempts = 2 ∧
    busyTwice.sp.totalCalls = 2 ∧
    busyTwice.leadStored.status = "busy" ∧
    (CallLog.updateStatus callLogCompleted "failed" 99 none none).status =
      "failed" ∧
    (handleCallCompletion [1] callLogInit leadTransferred spZero "busy"
      1000).leadStored.status = "busy" := by
  decide

/-- Claim C4. The claim states that `attemptCount` increases by exactly
1 for every provider-reported outcome in busy, no_answer, failed,
including via the provider webhook path. The webhook path delivers the
provider vocabulary `no-answer` (hyphen), while `updateCallStatus`
tests for `no_answer` (underscore): the increment branch is skipped, the
lead's status is set to `no-answer`, which the Lead schema enum rejects,
so the save throws and the stored attempt count stays 0 — whereas the
`busy` outcome (identical in both vocabularies) counts exactly once. -/
theorem c4_webhook_no_answer_does_not_count :
    (handleCallStatusUpdate callLogInit baseLead "no-answer" 30
      1000).leadStored.callAttempts = 0 ∧
    (handleCallStatusUpdate callLogInit baseLead "no-answer" 30
      1000).leadDoc.callAttempts = 0 ∧
    (handleCallStatusUpdate callLogInit baseLead "no-answer" 30
      1000).leadDoc.status = "no-answer" ∧
    "no-answer" ∉ leadStatusEnum ∧
    (handleCallStatusUpdate callLogInit baseLead "no-answer" 30
      1000).errored = true ∧
    (handleCallStatusUpdate callLogInit baseLead "busy" 30
      1000).leadStored.callAttempts = 1 ∧
    (handleCallStatusUpdate callLogInit baseLead "busy" 30
      1000).errored = false := by
  decide

/-- Claim C5. For every lead whose attempt count reaches the maximum of
3 with a further countable outcome (`no_answer`, `busy` or `failed`),
`updateCallStatus` sets status `failed` and clears `isActive`; and
`getNextLeadToCall` never returns an inactive lead from any store, so
such a lead is never selected again. -/
theorem c5_attempt_cap_retires_lead :
    (∀ (l : Lead) (d : Nat) (notes : String) (now : Nat) (status : String),
      (status = "no_answer" ∨ status = "busy" ∨ status = "failed") →
      3 ≤ l.callAttempts + 1 →
      (updateCallStatus l status d notes now).status = "failed" ∧
      (updateCallStatus l status d notes now).isActive = false) ∧
    (∀ (store : List Lead) (now : Nat) (l : Lead),
      getNextLeadToCall store now = some l → l.isActive = true) := by
  constructor
  · intro l d notes now status hst h
    rcases hst with h1 | h1 | h1 <;> subst h1 <;>
      simp [updateCallStatus, Nat.not_lt.mpr h, h]
  · intro store now l h
    have he := getNext_eligible store now l h
    unfold isEligible at he
    simp at he
    exact he.1.2

/-- Witness for claim C5: a lead with two prior attempts is retired by a
third `no_answer`, and selection on a concrete store returns only an
active lead. -/
theorem c5_attempt_cap_retires_lead_witness :
    ((updateCallStatus leadTwoAttempts "no_answer" 0 "" 1000).status =
      "failed" ∧
     (updateCallStatus leadTwoAttempts "no_answer" 0 "" 1000).isActive =
      false) ∧
    leadHighEarlier.isActive = true :=
  ⟨c5_attempt_cap_retires_lead.1 leadTwoAttempts 0 "" 1000 "no_answer"
      (Or.inl rfl) (by decide),
   c5_attempt_cap_retires_lead.2 [leadHighEarlier] 100 leadHighEarlier
      (by decide)⟩

/-- Claim C6. Running `resetStuckLeads` preserves the store's length;
every lead whose status is `calling` and whose last update is older than
5 minutes is reset to `pending` with its assigned agent cleared, its
attempt count and attempt history untouched; every other lead is
returned entirely unchanged. -/
theorem c6_reset_stuck_leads_frame (now : Nat) (store : List Lead) :
    (resetStuckLeads now store).length = store.length ∧
    ∀ (i : Nat) (h : i < store.length),
      (((store.get ⟨i, h⟩).status = "calling" ∧
          (store.get ⟨i, h⟩).updatedAt + 5 * 60 * 1000 < now) →
        ((resetStuckLeads now store).get
            ⟨i, by simpa [resetStuckLeads] using h⟩).status = "pending" ∧
        ((resetStuckLeads now store).get
            ⟨i, by simpa [resetStuckLeads] using h⟩).assignedTo = none ∧
        ((resetStuckLeads now store).get
            ⟨i, by simpa [resetStuckLeads] using h⟩).callAttempts =
          (store.get ⟨i, h⟩).callAttempts ∧
        ((resetStuckLeads now store).get
            ⟨i, by simpa [resetStuckLeads] using h⟩).callHistory =
          (store.get ⟨i, h⟩).callHistory) ∧
      (¬ ((store.get ⟨i, h⟩).status = "calling" ∧
          (store.get ⟨i, h⟩).updatedAt + 5 * 60 * 1000 < now) →
        (resetStuckLeads now store).get
            ⟨i, by simpa [resetStuckLeads] using h⟩ = store.get ⟨i, h⟩) := by
  refine ⟨by simp [resetStuckLeads], ?_⟩
  intro i h
  constructor
  · intro hs
    simp only [List.get_eq_getElem] at hs ⊢
    simp [resetStuckLeads, hs.1, hs.2]
  · intro hs
    simp only [List.get_eq_getElem] at hs ⊢
    simp only [resetStuckLeads, List.getElem_map]
    rw [if_neg]
    simpa using hs

/-- Witness for claim C6: a store with one lead stuck in `calling` for
6 minutes and one fresh pending lead; recovery resets the first with its
attempt data intact and returns the second unchanged. -/
theorem c6_reset_stuck_leads_frame_witness :
    (resetStuckLeads 360000 [stuckLead, freshLead]).length = 2 ∧
    ((resetStuckLeads 360000 [stuckLead, freshLead]).get
        ⟨0, by decide⟩).status = "pending" ∧
    ((resetStuckLeads 360000 [stuckLead, freshLead]).get
        ⟨0, by decide⟩).assignedTo = none ∧
    ((resetStuckLeads 360000 [stuckLead, freshLead]).get
        ⟨0, by decide⟩).callAttempts = stuckLead.callAttempts ∧
    ((resetStuckLeads 360000 [stuckLead, freshLead]).get
        ⟨0, by decide⟩).callHistory = stuckLead.callHistory ∧
    (resetStuckLeads 360000 [stuckLead, freshLead]).get
        ⟨1, by decide⟩ = freshLead := by
  have h0 := ((c6_reset_stuck_leads_frame 360000
    [stuckLead, freshLead]).2 0 (by decide)).1 (by decide)
  have h1 := ((c6_reset_stuck_leads_frame 360000
    [stuckLead, freshLead]).2 1 (by decide)).2 (by decide)
  exact ⟨(c6_reset_stuck_leads_frame 360000 [stuckLead, freshLead]).1,
    h0.1, h0.2.1, h0.2.2.1, h0.2.2.2, h1⟩

/-- Claim C7. On a synchronous placement failure, `handleCallFailure`
reverts the lead to `pending` with its assigned agent cleared, leaves
its attempt count and history untouched, marks the call attempt `failed`
with the error detail recorded, and removes the lead's key from the
active working set. -/
theorem c7_placement_failure_reverts_lead (lead : Lead) (c : CallLog)
    (err : String) (ac : List Nat) (now : Nat) :
    (handleCallFailure lead (some c) err ac now).lead.status =
      "pending" ∧
    (handleCallFailure lead (some c) err ac now).lead.assignedTo =
      none ∧
    (handleCallFailure lead (some c) err ac now).lead.callAttempts =
      lead.callAttempts ∧
    (handleCallFailure lead (some c) err ac now).lead.callHistory =
      lead.callHistory ∧
    (handleCallFailure lead (some c) err ac now).callLog =
      some { c with status := "failed", errorMessage := some err } ∧
    ((handleCallFailure lead (some c) err ac now).activeCalls.all
      (fun x => x != lead.id)) = true := by
  refine ⟨rfl, rfl, rfl, rfl, rfl, ?_⟩
  simp [handleCallFailure, List.all_eq_true, List.mem_filter]

/-- Claim C8. Each `processQueue` tick adds at most one key to the
active working set, a tick that starts at the concurrency limit changes
nothing, and in every reachable scheduler state the active working set
holds at most `maxConcurrentCalls` entries. -/
theorem c8_concurrency_cap :
    (∀ (ac : List Nat) (store : List Lead) (now : Nat) (sp : Option Nat)
      (pl : Bool),
      (processQueue ac store now sp pl).length ≤ ac.length + 1) ∧
    (∀ (ac : List Nat) (store : List Lead) (now : Nat) (sp : Option Nat)
      (pl : Bool), maxConcurrentCalls ≤ ac.length →
      processQueue ac store now sp pl = ac) ∧
    (∀ (ac : List Nat), QueueReachable ac →
      ac.length ≤ maxConcurrentCalls) := by
  refine ⟨processQueue_len_le, processQueue_at_cap, ?_⟩
  intro ac h
  induction h with
  | init => simp
  | tick ac store now sp pl _ ih =>
    by_cases hc : maxConcurrentCalls ≤ ac.length
    · rw [processQueue_at_cap ac store now sp pl hc]; exact ih
    · have := processQueue_len_le ac store now sp pl
      unfold maxConcurrentCalls at *
      omega
  | remove ac x _ ih =>
    exact le_trans (List.length_filter_le _ _) ih

/-- Witness for claim C8: a tick at a full working set of five keys is a
no-op, and the startup state respects the cap. -/
theorem c8_concurrency_cap_witness :
    processQueue [11, 12, 13, 14, 15] [] 0 none true =
      [11, 12, 13, 14, 15] ∧
    ([] : List Nat).length ≤ maxConcurrentCalls :=
  ⟨c8_concurrency_cap.2.1 [11, 12, 13, 14, 15] [] 0 none true
      (by decide),
   c8_concurrency_cap.2.2 [] QueueReachable.init⟩

/-- Claim C9. The operator claim route sets the lead's status to
`claimed` before saving; `claimed` is not in the Lead schema's status
enum, so validation rejects the save and the operation never succeeds,
for every lead and operator; more generally no lead whose status is set
to `claimed` is ever persisted. -/
theorem c9_claim_route_never_succeeds :
    (∀ (lead : Lead) (userId : Nat),
      (claimLead lead userId).toOption = none) ∧
    (∀ (l : Lead),
      (saveLead { l with status := "claimed" }).toOption = none) := by
  constructor
  · intro lead userId
    unfold claimLead
    split
    · rfl
    · split
      · rfl
      · split
        · rfl
        · simp [saveLead, validateLead, leadStatusEnum, Except.toOption]
  · intro l
    simp [saveLead, validateLead, leadStatusEnum, Except.toOption]

/-- Claim C10. Starting the queue processor when it is already running
changes nothing, stopping it when it is not running changes nothing,
pause and resume are idempotent, and in every reachable control state
`getStatus` reports `isRunning` true exactly when an interval timer is
installed. -/
theorem c10_start_stop_idempotent :
    (∀ (s : CallQueueCtl) (t : Nat), s.isRunning = true →
      ctlStart s t = s) ∧
    (∀ (s : CallQueueCtl), s.isRunning = false → ctlStop s = s) ∧
    (∀ (s : CallQueueCtl), ctlPause (ctlPause s) = ctlPause s) ∧
    (∀ (s : CallQueueCtl) (t u : Nat),
      ctlResume (ctlResume s t) u = ctlResume s t) ∧
    (∀ (s : CallQueueCtl), CtlReachable s →
      getStatusIsRunning s = s.callInterval.isSome) := by
  refine ⟨?_, ?_, ?_, ?_, ?_⟩
  · intro s t h
    unfold ctlStart
    rw [if_pos h]
  · intro s h
    unfold ctlStop
    simp [h]
  · intro s
    unfold ctlPause ctlStop
    by_cases hr : s.isRunning <;> simp [hr]
  · intro s t u
    unfold ctlResume ctlStart
    by_cases hr : s.isRunning <;> simp [hr]
  · intro s h
    induction h with
    | init => rfl
    | start s t _ ih =>
      unfold ctlStart
      by_cases hr : s.isRunning
      · simpa [hr]
      · simp [hr, getStatusIsRunning]
    | stop s _ ih =>
      unfold ctlStop
      by_cases hr : s.isRunning
      · simp [hr, getStatusIsRunning]
      · simpa [hr]
    | pause s _ ih =>
      unfold ctlPause ctlStop
      by_cases hr : s.isRunning
      · simp [hr, getStatusIsRunning]
      · simp [hr]; exact ih
    | resume s t _ ih =>
      unfold ctlResume ctlStart
      by_cases hr : s.isRunning
      · simp [hr]; exact ih
      · simp [hr, getStatusIsRunning]

/-- Witness for claim C10 at concrete control states. -/
theorem c10_start_stop_idempotent_witness :
    ctlStart { isRunning := true, callInterval := some 3 } 9 =
      { isRunning := true, callInterval := some 3 } ∧
    ctlStop ctlInit = ctlInit ∧
    getStatusIsRunning ctlInit = ctlInit.callInterval.isSome :=
  ⟨c10_start_stop_idempotent.1 { isRunning := true, callInterval := some 3 }
      9 rfl,
   c10_start_stop_idempotent.2.1 ctlInit rfl,
   c10_start_stop_idempotent.2.2.2.2 ctlInit CtlReachable.init⟩
